import Mathlib

/-!
Shallow embedding of the uptime/downtime estimation engine of the store
monitoring service (`main.py`, duplicated in `main_simple.py`).

Modelling conventions:
* Instants are rational numbers of minutes on a common axis whose day 0
  starts at minute 0 and is a Monday, so Python `weekday()` is day mod 7
  and `date()` is the floor of the minute count divided by 1440.  Naive
  UTC datetimes and local datetimes live on the same axis, shifted by the
  zone offset.
* The timezone database (`pytz`) is a partial map from zone name to a
  fixed offset in minutes; an unknown name behaves like
  `pytz.UnknownTimeZoneError`, i.e. an exception.
* The SQLAlchemy session is a `ProvDB`: each query either fails (the
  provider raised) or returns its rows.  `DB.toProv` is the ordinary
  in-memory backing store, whose queries never fail.
* Python `try/except` is an explicit match on the `Except` value; the
  `except` branches return the literal fallback the code returns.
-/

/-- Parse one decimal digit. -/
def digitVal (c : Char) : Option Nat :=
  if c.isDigit then some (c.toNat - 48) else none

/-- Parse an HH:MM wall-clock string the way `datetime.strptime(s, "%H:%M")`
does: one or two digits for the hour (at most 23), a colon, one or two
digits for the minute (at most 59), and nothing else.  Returns `none`
exactly when `strptime` raises `ValueError`. -/
def parseHHMM (s : String) : Option (Nat × Nat) :=
  let val2 : List Char → Option Nat := fun cs =>
    match cs with
    | [c] => digitVal c
    | [c1, c2] =>
      match digitVal c1, digitVal c2 with
      | some d1, some d2 => some (d1 * 10 + d2)
      | _, _ => none
    | _ => none
  match s.data.splitOn ':' with
  | [hcs, mcs] =>
    match val2 hcs, val2 mcs with
    | some h, some m => if h ≤ 23 ∧ m ≤ 59 then some (h, m) else none
    | _, _ => none
  | _ => none

/-- Calendar day number of an instant in minutes (Python `.date()`):
day 0 covers minutes `[0, 1440)` and is a Monday by epoch convention. -/
def dayNumber (t : ℚ) : Int := ⌊t / 1440⌋

/-- Python `weekday()`: 0 = Monday .. 6 = Sunday, via the Monday epoch. -/
def weekdayOf (t : ℚ) : Int := dayNumber t % 7

/-- Wall-clock minutes since midnight of the instant's own day, i.e.
Python `datetime.time()` read as a minute count. -/
def timeOfDay (t : ℚ) : ℚ := t - 1440 * ((dayNumber t : ℤ) : ℚ)

/-- One row of the `store_status` table: a polling observation. -/
structure StatusRecord where
  store_id : String
  timestamp_utc : ℚ
  status : String
deriving DecidableEq

/-- One row of the `store_hours` table (`menu_hours.csv`). -/
structure HoursRecord where
  store_id : String
  day_of_week : Int
  start_time_local : String
  end_time_local : String
deriving DecidableEq

/-- One row of the `store_timezone` table. -/
structure TzRecord where
  store_id : String
  timezone_str : String
deriving DecidableEq

/-- The in-memory backing store holding the three imported CSV tables. -/
structure DB where
  status : List StatusRecord
  hours : List HoursRecord
  timezones : List TzRecord

/-- The `pytz` zone database: zone name to fixed UTC offset in minutes;
`none` models `pytz.UnknownTimeZoneError`. -/
def Tzdb : Type := String → Option Int

/-- The database session as seen by the engine: each query either raises
(provider failure, `Except.error`) or returns its result.  `storeIds` is
the `distinct(store_id)` query of `generate_report`; `statusOf` is the
per-store status query ordered by timestamp; `tzOf` and `hoursOf` are the
`.first()` lookups of `is_store_open` and the business-minutes loop. -/
structure ProvDB where
  storeIds : Except Unit (List String)
  statusOf : String → Except Unit (List StatusRecord)
  tzOf : String → Except Unit (Option String)
  hoursOf : String → Int → Except Unit (Option HoursRecord)

/-- Stable insertion of a record into a list sorted by timestamp. -/
def insertByTime (r : StatusRecord) : List StatusRecord → List StatusRecord
  | [] => [r]
  | x :: xs =>
    if r.timestamp_utc ≤ x.timestamp_utc then r :: x :: xs
    else x :: insertByTime r xs

/-- Stable sort by timestamp, modelling `order_by(timestamp_utc)`. -/
def sortByTime : List StatusRecord → List StatusRecord
  | [] => []
  | x :: xs => insertByTime x (sortByTime xs)

/-- The never-failing session over an in-memory `DB`: `.filter(...)` is a
list filter, `.first()` is `find?`, `distinct` is `eraseDups`. -/
def DB.toProv (db : DB) : ProvDB where
  storeIds := Except.ok ((db.status.map (fun r => r.store_id)).eraseDups)
  statusOf := fun sid =>
    Except.ok (sortByTime (db.status.filter (fun r => r.store_id == sid)))
  tzOf := fun sid =>
    Except.ok ((db.timezones.find? (fun r => r.store_id == sid)).map
      (fun r => r.timezone_str))
  hoursOf := fun sid dow =>
    Except.ok (db.hours.find? (fun r => r.store_id == sid && r.day_of_week == dow))

/-- `is_store_open(store_id, timestamp_utc, db)` of `main.py`: resolve the
zone (default `America/Chicago`), convert to local time, look up that
weekday's hours, and compare; every exception path — provider failure,
unknown zone, malformed HH:MM string — is caught and yields `true`. -/
def is_store_open (tzdb : Tzdb) (pdb : ProvDB) (sid : String) (ts : ℚ) : Bool :=
  match pdb.tzOf sid with
  | Except.error _ => true
  | Except.ok tzo =>
    match tzdb (tzo.getD "America/Chicago") with
    | none => true
    | some off =>
      let lt : ℚ := ts + (off : ℚ)
      match pdb.hoursOf sid (weekdayOf lt) with
      | Except.error _ => true
      | Except.ok none => true
      | Except.ok (some hr) =>
        match parseHHMM hr.start_time_local, parseHHMM hr.end_time_local with
        | some st, some et =>
          let s : ℚ := (st.1 : ℚ) * 60 + (st.2 : ℚ)
          let e : ℚ := (et.1 : ℚ) * 60 + (et.2 : ℚ)
          let c : ℚ := timeOfDay lt
          if e < s then decide (s ≤ c) || decide (c ≤ e)
          else decide (s ≤ c) && decide (c ≤ e)
        | _, _ => true

/-- The per-day business-minute budget of the accumulator loop in
`calculate_uptime_downtime`: no entry for the weekday means 1440 minutes,
an overnight entry (`start > end`) contributes
`24*60 - start_h*60 - start_m + end_h*60 + end_m`, a regular entry
contributes `end_h*60 + end_m - start_h*60 - start_m`.  A provider failure
or an unparsable time string raises (propagates to the caller's
`except`). -/
def dayBudget (pdb : ProvDB) (sid : String) (day : Int) : Except Unit ℚ :=
  match pdb.hoursOf sid (day % 7) with
  | Except.error e => Except.error e
  | Except.ok none => Except.ok 1440
  | Except.ok (some hr) =>
    match parseHHMM hr.start_time_local, parseHHMM hr.end_time_local with
    | some st, some et =>
      let s : ℚ := (st.1 : ℚ) * 60 + (st.2 : ℚ)
      let e : ℚ := (et.1 : ℚ) * 60 + (et.2 : ℚ)
      if e < s then
        Except.ok (24 * 60 - (st.1 : ℚ) * 60 - (st.2 : ℚ) + ((et.1 : ℚ) * 60 + (et.2 : ℚ)))
      else
        Except.ok ((et.1 : ℚ) * 60 + (et.2 : ℚ) - ((st.1 : ℚ) * 60) - (st.2 : ℚ))
    | _, _ => Except.error ()

/-- The `while current_date <= end_date` accumulation, unrolled on the
number of remaining dates. -/
def businessMinutesAux (pdb : ProvDB) (sid : String) : Int → Nat → Except Unit ℚ
  | _, 0 => Except.ok 0
  | d, Nat.succ n =>
    match dayBudget pdb sid d with
    | Except.error e => Except.error e
    | Except.ok b =>
      match businessMinutesAux pdb sid (d + 1) n with
      | Except.error e => Except.error e
      | Except.ok rest => Except.ok (b + rest)

/-- Total business minutes over the calendar dates from
`startT.date()` to `endT.date()` inclusive. -/
def total_business_minutes (pdb : ProvDB) (sid : String) (startT endT : ℚ) :
    Except Unit ℚ :=
  businessMinutesAux pdb sid (dayNumber startT)
    ((dayNumber endT + 1 - dayNumber startT).toNat)

/-- The forward-fill uptime loop: each `active` record contributes the
minutes up to the next record's timestamp, or up to `endT` for the last
record; other records contribute nothing. -/
def uptimeMinutes : List StatusRecord → ℚ → ℚ
  | [], _ => 0
  | r :: rest, endT =>
    let next : ℚ :=
      match rest with
      | [] => endT
      | r2 :: _ => r2.timestamp_utc
    (if r.status == "active" then next - r.timestamp_utc else 0) +
      uptimeMinutes rest endT

/-- The window filter
`[r for r in business_hours_records if r.timestamp_utc >= start_time]`. -/
def periodFilter (rs : List StatusRecord) (startT : ℚ) : List StatusRecord :=
  rs.filter (fun r => decide (startT ≤ r.timestamp_utc))

/-- Window length in minutes for each accepted `time_period` string. -/
def periodDelta (p : String) : Option ℚ :=
  if p == "hour" then some 60
  else if p == "day" then some 1440
  else if p == "week" then some 10080
  else none

/-- `calculate_uptime_downtime(store_id, db, time_period)` of `main.py`:
fetch the store's records ordered by time, keep those within business
hours, keep those with timestamp at least `now - delta`, sum a full-day
business-minute budget for every calendar date from the window start date
to the end date, accumulate forward-fill uptime, derive downtime by
subtraction, and convert day/week results to hours.  Every early-out and
the outer `except` return `(0, 0)`. -/
def calculate_uptime_downtime (tzdb : Tzdb) (pdb : ProvDB) (now : ℚ)
    (sid : String) (p : String) : ℚ × ℚ :=
  match pdb.statusOf sid with
  | Except.error _ => (0, 0)
  | Except.ok status_records =>
    if status_records.isEmpty then (0, 0)
    else
      let business := status_records.filter
        (fun r => is_store_open tzdb pdb sid r.timestamp_utc)
      if business.isEmpty then (0, 0)
      else
        match periodDelta p with
        | none => (0, 0)
        | some d =>
          let startT := now - d
          let period_records := periodFilter business startT
          if period_records.isEmpty then (0, 0)
          else
            match total_business_minutes pdb sid startT now with
            | Except.error _ => (0, 0)
            | Except.ok tbm =>
              let up := uptimeMinutes period_records now
              let down := tbm - up
              if p == "hour" then (up, down) else (up / 60, down / 60)

/-- Round-half-to-even to an integer, the rounding used by Python
`round`. -/
def roundHalfEven (x : ℚ) : Int :=
  let n := ⌊x⌋
  let f := x - (n : ℚ)
  if f < 1 / 2 then n
  else if 1 / 2 < f then n + 1
  else if n % 2 = 0 then n else n + 1

/-- Python `round(x, 2)`. -/
def round2 (x : ℚ) : ℚ := ((roundHalfEven (x * 100) : ℤ) : ℚ) / 100

/-- One output row of the report CSV. -/
structure ReportRow where
  store_id : String
  uptime_last_hour : ℚ
  uptime_last_day : ℚ
  uptime_last_week : ℚ
  downtime_last_hour : ℚ
  downtime_last_day : ℚ
  downtime_last_week : ℚ
deriving DecidableEq

/-- The per-store body of the report loop in `generate_report`: three
window computations and a 2-decimal rounding of each of the six values. -/
def storeRow (tzdb : Tzdb) (pdb : ProvDB) (now : ℚ) (sid : String) : ReportRow :=
  let uh := calculate_uptime_downtime tzdb pdb now sid "hour"
  let ud := calculate_uptime_downtime tzdb pdb now sid "day"
  let uw := calculate_uptime_downtime tzdb pdb now sid "week"
  { store_id := sid
  , uptime_last_hour := round2 uh.1
  , uptime_last_day := round2 ud.1
  , uptime_last_week := round2 uw.1
  , downtime_last_hour := round2 uh.2
  , downtime_last_day := round2 ud.2
  , downtime_last_week := round2 uw.2 }

/-- Terminal state of one report generation. -/
inductive ReportOutcome where
  | Complete : List ReportRow → ReportOutcome
  | Failed : ReportOutcome
deriving DecidableEq

/-- `generate_report(report_id)` of `main.py`, restricted to the engine:
enumerate the distinct store ids and build one row per store; if an
exception escapes (here: the store-id query fails) the report is marked
`Failed` and no rows are surfaced. -/
def generate_report (tzdb : Tzdb) (pdb : ProvDB) (now : ℚ) : ReportOutcome :=
  match pdb.storeIds with
  | Except.error _ => ReportOutcome.Failed
  | Except.ok sids => ReportOutcome.Complete (sids.map (storeRow tzdb pdb now))

/-! ## Specification-side definitions

These restate, in the spec's own wording, the quantities the claims
describe; the theorems below compare them with the engine above. -/

/-- The per-day budget exactly as the spec words it: 1440 minutes when no
entry exists, `(end.h*60+end.m) - (start.h*60+start.m)` when
`start <= end`, and `(1440 - start.h*60 - start.m) + (end.h*60+end.m)`
when `start > end`.  The two junk branches are unreachable under the
theorems' hypotheses. -/
def specDayBudget (pdb : ProvDB) (sid : String) (day : Int) : ℚ :=
  match pdb.hoursOf sid (day % 7) with
  | Except.error _ => 0
  | Except.ok none => 1440
  | Except.ok (some hr) =>
    match parseHHMM hr.start_time_local, parseHHMM hr.end_time_local with
    | some st, some et =>
      if (st.1 : ℚ) * 60 + (st.2 : ℚ) ≤ (et.1 : ℚ) * 60 + (et.2 : ℚ) then
        ((et.1 : ℚ) * 60 + (et.2 : ℚ)) - ((st.1 : ℚ) * 60 + (st.2 : ℚ))
      else
        (1440 - (st.1 : ℚ) * 60 - (st.2 : ℚ)) + ((et.1 : ℚ) * 60 + (et.2 : ℚ))
    | _, _ => 0

/-- Whether the budget of a date resolves without an exception. -/
def budgetDefined (pdb : ProvDB) (sid : String) (day : Int) : Bool :=
  match dayBudget pdb sid day with
  | Except.ok _ => true
  | Except.error _ => false

/-- The calendar dates from `startDay` to `endDay` inclusive. -/
def dayRange (startDay endDay : Int) : List Int :=
  (List.range ((endDay + 1 - startDay).toNat)).map
    (fun (k : Nat) => startDay + (k : Int))

/-- Each sample's "next" instant: the following sample's timestamp, or
the window end for the last sample. -/
def nextTimes (rs : List StatusRecord) (endT : ℚ) : List ℚ :=
  (rs.map (fun r => r.timestamp_utc)).tail ++ [endT]

/-- The uptime estimate as the spec words it: the sum, over each sample
with status `active`, of the minutes from its timestamp to its "next"
instant. -/
def specUptime (rs : List StatusRecord) (endT : ℚ) : ℚ :=
  ((rs.zip (nextTimes rs endT)).map
    (fun q => if q.1.status == "active" then q.2 - q.1.timestamp_utc else 0)).sum

/-! ## Test fixtures -/

/-- A zone database that knows only UTC. -/
def tzdbUTC : Tzdb := fun s => if s == "UTC" then some 0 else none

/-- The §8 scenario: store S in UTC, schedule Monday 09:00-17:00 only,
samples Monday 09:00 active, 12:00 active, 16:00 inactive (day 0 of the
epoch is a Monday, so 09:00 Monday is minute 540). -/
def dbC1 : DB where
  status := [⟨"S", 540, "active"⟩, ⟨"S", 720, "active"⟩, ⟨"S", 960, "inactive"⟩]
  hours := [⟨"S", 0, "09:00", "17:00"⟩]
  timezones := [⟨"S", "UTC"⟩]

/-- Overnight schedule 22:00-06:00 on Monday, for the §8 wrap checks. -/
def dbC4 : DB where
  status := []
  hours := [⟨"S", 0, "22:00", "06:00"⟩]
  timezones := [⟨"S", "UTC"⟩]

/-- A store whose Monday schedule is the degenerate 09:00-09:00 (budget
0 minutes) with one active sample at 09:00: uptime is positive while the
business-minute budget is 0, so derived downtime is negative. -/
def dbC5 : DB where
  status := [⟨"S", 540, "active"⟩]
  hours := [⟨"S", 0, "09:00", "09:00"⟩]
  timezones := [⟨"S", "UTC"⟩]

/-- A store assigned an unknown timezone name. -/
def dbC6a : DB where
  status := []
  hours := []
  timezones := [⟨"S", "Mars/Olympus"⟩]

/-- A store whose Monday start time string is malformed. -/
def dbC6b : DB where
  status := []
  hours := [⟨"S", 0, "9am", "17:00"⟩]
  timezones := [⟨"S", "UTC"⟩]

/-- A session whose store-id query succeeds but whose per-store sample
query raises: the failure the except block of
`calculate_uptime_downtime` swallows. -/
def pdbC7 : ProvDB where
  storeIds := Except.ok ["S"]
  statusOf := fun _ => Except.error ()
  tzOf := fun _ => Except.ok none
  hoursOf := fun _ _ => Except.ok none

/-- The pre-conversion minute values of one window of length `d`: the same
computation as `calculate_uptime_downtime` up to, but not including, the
final unit conversion. -/
def windowMinutes (tzdb : Tzdb) (pdb : ProvDB) (now : ℚ) (sid : String)
    (d : ℚ) : ℚ × ℚ :=
  match pdb.statusOf sid with
  | Except.error _ => (0, 0)
  | Except.ok status_records =>
    if status_records.isEmpty then (0, 0)
    else
      let business := status_records.filter
        (fun r => is_store_open tzdb pdb sid r.timestamp_utc)
      if business.isEmpty then (0, 0)
      else
        let startT := now - d
        let period_records := periodFilter business startT
        if period_records.isEmpty then (0, 0)
        else
          match total_business_minutes pdb sid startT now with
          | Except.error _ => (0, 0)
          | Except.ok tbm =>
            let up := uptimeMinutes period_records now
            (up, tbm - up)

/-- A store with no samples at all, for the C9 witness. -/
def dbC9 : DB where
  status := []
  hours := []
  timezones := []

/-! ## Helper lemmas -/

theorem filter_isEmpty_false {f : StatusRecord → Bool} {l : List StatusRecord}
    (h : (l.filter f).isEmpty = false) : l.isEmpty = false := by
  cases l with
  | nil => simp [List.filter] at h
  | cons x xs => rfl

theorem dayBudget_eq_spec (pdb : ProvDB) (sid : String) (day : Int) (b : ℚ)
    (h : dayBudget pdb sid day = Except.ok b) : b = specDayBudget pdb sid day := by
  unfold dayBudget at h
  cases hq : pdb.hoursOf sid (day % 7) with
  | error e => simp only [hq] at h; exact Except.noConfusion h
  | ok o =>
    simp only [hq] at h
    cases o with
    | none =>
      simp only [Except.ok.injEq] at h
      simp only [specDayBudget, hq]
      exact h.symm
    | some hr =>
      cases hs : parseHHMM hr.start_time_local with
      | none =>
        simp only [hs] at h
        exact Except.noConfusion h
      | some st =>
        cases he : parseHHMM hr.end_time_local with
        | none =>
          simp only [hs, he] at h
          exact Except.noConfusion h
        | some et =>
          simp only [hs, he] at h
          simp only [specDayBudget, hq, hs, he]
          by_cases hlt : ((et.1 : ℚ) * 60 + (et.2 : ℚ)) < ((st.1 : ℚ) * 60 + (st.2 : ℚ))
          · rw [if_pos hlt] at h
            rw [if_neg (not_le.mpr hlt)]
            simp only [Except.ok.injEq] at h
            rw [← h]; ring
          · rw [if_neg hlt] at h
            rw [if_pos (not_lt.mp hlt)]
            simp only [Except.ok.injEq] at h
            rw [← h]; ring

theorem businessMinutesAux_eq_sum (pdb : ProvDB) (sid : String) :
    ∀ (n : Nat) (s : Int),
      (∀ k : Nat, k < n → budgetDefined pdb sid (s + (k : Int)) = true) →
      businessMinutesAux pdb sid s n =
        Except.ok (((List.range n).map
          (fun (k : Nat) => specDayBudget pdb sid (s + (k : Int)))).sum) := by
  intro n
  induction n with
  | zero => intro s _; simp [businessMinutesAux]
  | succ n ih =>
    intro s h
    have hdef : budgetDefined pdb sid s = true := by
      have := h 0 (Nat.succ_pos n)
      simpa using this
    unfold budgetDefined at hdef
    cases hb : dayBudget pdb sid s with
    | error e => rw [hb] at hdef; simp at hdef
    | ok b =>
      have hk1 : ∀ k : Nat, k < n → budgetDefined pdb sid (s + 1 + (k : Int)) = true := by
        intro k hk
        have hx := h (k + 1) (Nat.succ_lt_succ hk)
        have harith : s + ((k + 1 : Nat) : Int) = s + 1 + (k : Int) := by push_cast; ring
        rwa [harith] at hx
      have hrec := ih (s + 1) hk1
      show businessMinutesAux pdb sid s (Nat.succ n) = _
      unfold businessMinutesAux
      rw [hb, hrec]
      have hbspec : b = specDayBudget pdb sid s := dayBudget_eq_spec pdb sid s b hb
      rw [hbspec]
      rw [List.range_succ_eq_map, List.map_cons, List.map_map, List.sum_cons]
      have hfun : ((fun (k : Nat) => specDayBudget pdb sid (s + (k : Int))) ∘ Nat.succ) =
          (fun (k : Nat) => specDayBudget pdb sid (s + 1 + (k : Int))) := by
        funext k
        simp only [Function.comp]
        congr 1
        push_cast
        ring
      rw [hfun]
      norm_num

theorem uptimeMinutes_eq_specUptime :
    ∀ (rs : List StatusRecord) (endT : ℚ), uptimeMinutes rs endT = specUptime rs endT := by
  intro rs
  induction rs with
  | nil => intro endT; simp [uptimeMinutes, specUptime, nextTimes]
  | cons r rest ih =>
    intro endT
    cases rest with
    | nil => simp [uptimeMinutes, specUptime, nextTimes]
    | cons r2 rest2 =>
      have ht : nextTimes (r :: r2 :: rest2) endT =
          r2.timestamp_utc :: nextTimes (r2 :: rest2) endT := by
        simp [nextTimes]
      have hu : uptimeMinutes (r :: r2 :: rest2) endT =
          (if (r.status == "active") = true then r2.timestamp_utc - r.timestamp_utc
           else 0) + uptimeMinutes (r2 :: rest2) endT := rfl
      have hs2 : specUptime (r :: r2 :: rest2) endT =
          (if (r.status == "active") = true then r2.timestamp_utc - r.timestamp_utc
           else 0) + specUptime (r2 :: rest2) endT := by
        simp only [specUptime, ht, List.zip_cons_cons, List.map_cons, List.sum_cons]
      rw [hu, hs2, ih endT]

/-! ## Claim theorems -/

/-- C2: for every store and every window, the business-minutes total is the
sum, over every calendar date from `windowStart.date()` to
`windowEnd.date()` inclusive, of a fixed per-day budget determined only by
that date's weekday schedule entry — 1440 minutes with no entry,
`end − start` in minutes when `start ≤ end`, and the wrapped value
`(1440 − start) + end` when `start > end` — with every boundary date
counted as a full scheduled day. -/
theorem C2_business_minutes_full_day_sum (pdb : ProvDB) (sid : String)
    (startT endT : ℚ)
    (h : ∀ d ∈ dayRange (dayNumber startT) (dayNumber endT),
        budgetDefined pdb sid d = true) :
    total_business_minutes pdb sid startT endT =
      Except.ok (((dayRange (dayNumber startT) (dayNumber endT)).map
        (specDayBudget pdb sid)).sum) := by
  unfold total_business_minutes
  rw [businessMinutesAux_eq_sum pdb sid _ (dayNumber startT) ?hyp]
  · congr 1
    unfold dayRange
    rw [List.map_map]
    rfl
  case hyp =>
    intro k hk
    apply h
    unfold dayRange
    exact List.mem_map_of_mem _ (List.mem_range.mpr hk)

/-- Witness for C2 on the §8 fixture: the day window from Sunday 17:00 to
Monday 17:00 touches the dates Sunday (no entry, 1440) and Monday
(09:00-17:00, 480), so the accumulator returns 1920 minutes. -/
theorem C2_business_minutes_full_day_sum_witness :
    total_business_minutes dbC1.toProv "S" (-420) 1020 = Except.ok 1920 := by
  have h := C2_business_minutes_full_day_sum dbC1.toProv "S" (-420) 1020
    (by with_unfolding_all decide)
  rw [h]
  with_unfolding_all rfl

/-- C3: for every chronologically ordered sequence of in-window samples and
window end, the uptime estimate is the sum over `active` samples of the
minutes to the next sample (or to the window end for the last one);
`inactive` samples add nothing and no uptime precedes the first sample; in
particular active/inactive/active samples yield
`(t1 − t0) + (windowEnd − t2)`. -/
theorem C3_uptime_forward_fill :
    (∀ (rs : List StatusRecord) (endT : ℚ),
        uptimeMinutes rs endT = specUptime rs endT) ∧
    (∀ (t0 t1 t2 endT : ℚ), t0 < t1 → t1 < t2 → t2 < endT →
        uptimeMinutes
          [⟨"S", t0, "active"⟩, ⟨"S", t1, "inactive"⟩, ⟨"S", t2, "active"⟩] endT
          = (t1 - t0) + (endT - t2)) := by
  constructor
  · exact uptimeMinutes_eq_specUptime
  · intro t0 t1 t2 endT _ _ _
    show (if (("active" == "active") = true) then t1 - t0 else 0) +
      ((if (("inactive" == "active") = true) then t2 - t1 else 0) +
        ((if (("active" == "active") = true) then endT - t2 else 0) + 0)) = _
    rw [if_pos (by decide : (("active" == "active") = true)),
      if_neg (by decide : ¬ (("inactive" == "active") = true)),
      if_pos (by decide : (("active" == "active") = true))]
    ring

/-- Witness for C3 at concrete instants 0, 10, 20 with window end 30. -/
theorem C3_uptime_forward_fill_witness :
    uptimeMinutes
      [⟨"S", 0, "active"⟩, ⟨"S", 10, "inactive"⟩, ⟨"S", 20, "active"⟩] 30
      = (10 - 0) + (30 - 20) :=
  C3_uptime_forward_fill.2 0 10 20 30 (by norm_num) (by norm_num) (by norm_num)

theorem calculate_eq_windowMinutes (tzdb : Tzdb) (pdb : ProvDB) (now : ℚ)
    (sid : String) (p : String) (d : ℚ) (hp : periodDelta p = some d) :
    calculate_uptime_downtime tzdb pdb now sid p =
      (if p == "hour" then windowMinutes tzdb pdb now sid d
       else ((windowMinutes tzdb pdb now sid d).1 / 60,
             (windowMinutes tzdb pdb now sid d).2 / 60)) := by
  unfold calculate_uptime_downtime windowMinutes
  cases hs : pdb.statusOf sid with
  | error e => simp
  | ok rs =>
    simp only
    cases h1 : rs.isEmpty with
    | true => simp [h1]
    | false =>
      simp only [h1, Bool.false_eq_true, if_false]
      cases h2 : (rs.filter (fun r => is_store_open tzdb pdb sid r.timestamp_utc)).isEmpty with
      | true => simp [h2]
      | false =>
        simp only [h2, Bool.false_eq_true, if_false, hp]
        cases h3 : (periodFilter
            (rs.filter (fun r => is_store_open tzdb pdb sid r.timestamp_utc))
            (now - d)).isEmpty with
        | true => simp [h3]
        | false =>
          simp only [h3, Bool.false_eq_true, if_false]
          cases h4 : total_business_minutes pdb sid (now - d) now with
          | error e => simp [h4]
          | ok tbm => simp only [h4]

/-- C8: hour-window uptime and downtime are reported in minutes with no
conversion, day- and week-window values are the corresponding minute
values divided by 60, and each of the six fields of the final row is
independently rounded to 2 decimal places. -/
theorem C8_unit_conversion_rounding (tzdb : Tzdb) (pdb : ProvDB) (now : ℚ)
    (sid : String) :
    calculate_uptime_downtime tzdb pdb now sid "hour" =
      windowMinutes tzdb pdb now sid 60 ∧
    calculate_uptime_downtime tzdb pdb now sid "day" =
      ((windowMinutes tzdb pdb now sid 1440).1 / 60,
       (windowMinutes tzdb pdb now sid 1440).2 / 60) ∧
    calculate_uptime_downtime tzdb pdb now sid "week" =
      ((windowMinutes tzdb pdb now sid 10080).1 / 60,
       (windowMinutes tzdb pdb now sid 10080).2 / 60) ∧
    storeRow tzdb pdb now sid =
      { store_id := sid
      , uptime_last_hour :=
          round2 (calculate_uptime_downtime tzdb pdb now sid "hour").1
      , uptime_last_day :=
          round2 (calculate_uptime_downtime tzdb pdb now sid "day").1
      , uptime_last_week :=
          round2 (calculate_uptime_downtime tzdb pdb now sid "week").1
      , downtime_last_hour :=
          round2 (calculate_uptime_downtime tzdb pdb now sid "hour").2
      , downtime_last_day :=
          round2 (calculate_uptime_downtime tzdb pdb now sid "day").2
      , downtime_last_week :=
          round2 (calculate_uptime_downtime tzdb pdb now sid "week").2 } := by
  refine ⟨?_, ?_, ?_, rfl⟩
  · rw [calculate_eq_windowMinutes tzdb pdb now sid "hour" 60 rfl]
    rw [if_pos (by decide : (("hour" == "hour") = true))]
  · rw [calculate_eq_windowMinutes tzdb pdb now sid "day" 1440 rfl]
    rw [if_neg (by decide : ¬ (("day" == "hour") = true))]
  · rw [calculate_eq_windowMinutes tzdb pdb now sid "week" 10080 rfl]
    rw [if_neg (by decide : ¬ (("week" == "hour") = true))]

theorem round2_zero : round2 0 = 0 := by
  with_unfolding_all rfl

/-- C5: whenever a window computation reaches its main branch, the
downtime is exactly the business-minutes total minus the uptime estimate,
before unit conversion; the subtraction is not clamped, and on the `dbC5`
fixture the hour-window downtime is negative. -/
theorem C5_downtime_subtractive :
    (∀ (tzdb : Tzdb) (pdb : ProvDB) (now : ℚ) (sid p : String) (d : ℚ)
        (rs : List StatusRecord) (tbm : ℚ),
      pdb.statusOf sid = Except.ok rs →
      periodDelta p = some d →
      (periodFilter (rs.filter (fun r => is_store_open tzdb pdb sid r.timestamp_utc))
        (now - d)).isEmpty = false →
      total_business_minutes pdb sid (now - d) now = Except.ok tbm →
      calculate_uptime_downtime tzdb pdb now sid p =
        (if p == "hour" then
          (uptimeMinutes (periodFilter (rs.filter
              (fun r => is_store_open tzdb pdb sid r.timestamp_utc)) (now - d)) now,
           tbm - uptimeMinutes (periodFilter (rs.filter
              (fun r => is_store_open tzdb pdb sid r.timestamp_utc)) (now - d)) now)
         else
          (uptimeMinutes (periodFilter (rs.filter
              (fun r => is_store_open tzdb pdb sid r.timestamp_utc)) (now - d)) now / 60,
           (tbm - uptimeMinutes (periodFilter (rs.filter
              (fun r => is_store_open tzdb pdb sid r.timestamp_utc)) (now - d)) now) / 60))) ∧
    (calculate_uptime_downtime tzdbUTC dbC5.toProv 570 "S" "hour").2 < 0 := by
  constructor
  · intro tzdb pdb now sid p d rs tbm hs hp hne htbm
    have hb : (rs.filter (fun r => is_store_open tzdb pdb sid r.timestamp_utc)).isEmpty
        = false := by
      apply filter_isEmpty_false (f := fun r => decide (now - d ≤ r.timestamp_utc))
      simpa [periodFilter] using hne
    have hr : rs.isEmpty = false := filter_isEmpty_false hb
    unfold calculate_uptime_downtime
    simp only [hs, hr, hb, hp, hne, htbm, Bool.false_eq_true, if_false]
  · have h : calculate_uptime_downtime tzdbUTC dbC5.toProv 570 "S" "hour"
        = (30, -30) := by
      with_unfolding_all rfl
    rw [h]
    norm_num

/-- Witness for C5 on the `dbC5` fixture: one active sample at 09:00, a
zero-minute Monday budget, hour window ending 09:30, hence `(30, -30)`. -/
theorem C5_downtime_subtractive_witness :
    calculate_uptime_downtime tzdbUTC dbC5.toProv 570 "S" "hour" = (30, -30) := by
  have h := C5_downtime_subtractive.1 tzdbUTC dbC5.toProv 570 "S" "hour" 60
    [⟨"S", 540, "active"⟩] 0 (by with_unfolding_all rfl) rfl
    (by with_unfolding_all rfl) (by with_unfolding_all rfl)
  rw [h]
  with_unfolding_all rfl

/-- C9: a store with zero samples produces the all-zero report row, and a
store whose samples all fall outside business hours, or outside the
window, yields `(0, 0)` for that window; none of these is an error. -/
theorem C9_empty_inputs :
    (∀ (tzdb : Tzdb) (pdb : ProvDB) (now : ℚ) (sid : String),
        pdb.statusOf sid = Except.ok [] →
        storeRow tzdb pdb now sid =
          { store_id := sid
          , uptime_last_hour := 0, uptime_last_day := 0, uptime_last_week := 0
          , downtime_last_hour := 0, downtime_last_day := 0
          , downtime_last_week := 0 }) ∧
    (∀ (tzdb : Tzdb) (pdb : ProvDB) (now : ℚ) (sid p : String)
        (rs : List StatusRecord),
        pdb.statusOf sid = Except.ok rs →
        (rs.filter (fun r => is_store_open tzdb pdb sid r.timestamp_utc)).isEmpty
          = true →
        calculate_uptime_downtime tzdb pdb now sid p = (0, 0)) ∧
    (∀ (tzdb : Tzdb) (pdb : ProvDB) (now : ℚ) (sid p : String) (d : ℚ)
        (rs : List StatusRecord),
        pdb.statusOf sid = Except.ok rs →
        periodDelta p = some d →
        (periodFilter (rs.filter (fun r => is_store_open tzdb pdb sid r.timestamp_utc))
          (now - d)).isEmpty = true →
        calculate_uptime_downtime tzdb pdb now sid p = (0, 0)) := by
  refine ⟨?_, ?_, ?_⟩
  · intro tzdb pdb now sid h
    have hcalc : ∀ p, calculate_uptime_downtime tzdb pdb now sid p = (0, 0) := by
      intro p
      unfold calculate_uptime_downtime
      simp [h]
    unfold storeRow
    simp only [hcalc]
    rw [round2_zero]
  · intro tzdb pdb now sid p rs hs hbe
    unfold calculate_uptime_downtime
    cases h1 : rs.isEmpty with
    | true => simp [hs, h1]
    | false => simp [hs, h1, hbe]
  · intro tzdb pdb now sid p d rs hs hp hpe
    unfold calculate_uptime_downtime
    cases h1 : rs.isEmpty with
    | true => simp [hs, h1]
    | false =>
      cases h2 : (rs.filter (fun r => is_store_open tzdb pdb sid r.timestamp_utc)).isEmpty with
      | true => simp [hs, h1, h2]
      | false => simp [hs, h1, h2, hp, hpe]

/-- Witness for C9: a store with zero samples yields the all-zero row. -/
theorem C9_empty_inputs_witness :
    storeRow tzdbUTC dbC9.toProv 0 "S" =
      { store_id := "S"
      , uptime_last_hour := 0, uptime_last_day := 0, uptime_last_week := 0
      , downtime_last_hour := 0, downtime_last_day := 0
      , downtime_last_week := 0 } :=
  C9_empty_inputs.1 tzdbUTC dbC9.toProv 0 "S" (by with_unfolding_all rfl)

/-- C10: the window filter keeps exactly the samples with timestamp at
least `now - d` and has no upper bound (second conjunct: a sample after
`now` is kept); when every sample's timestamp is at most `now` — true for
the engine since `now` is the dataset maximum — the kept set is exactly
the closed window `[now - d, now]`. -/
theorem C10_window_filter :
    (∀ (rs : List StatusRecord) (now d : ℚ),
        (∀ r ∈ rs, r.timestamp_utc ≤ now) →
        periodFilter rs (now - d) =
          rs.filter (fun r =>
            decide (now - d ≤ r.timestamp_utc) && decide (r.timestamp_utc ≤ now))) ∧
    periodFilter [⟨"S", 70, "active"⟩] (60 - 60) = [⟨"S", 70, "active"⟩] := by
  constructor
  · intro rs now d h
    unfold periodFilter
    apply List.filter_congr
    intro r hr
    rw [decide_eq_true (h r hr), Bool.and_true]
  · with_unfolding_all rfl

/-- Witness for C10 at two samples below the reference instant. -/
theorem C10_window_filter_witness :
    periodFilter [⟨"S", 50, "active"⟩, ⟨"S", 5, "active"⟩] (60 - 30) =
      [⟨"S", 50, "active"⟩, ⟨"S", 5, "active"⟩].filter (fun r =>
        decide ((60 : ℚ) - 30 ≤ r.timestamp_utc) && decide (r.timestamp_utc ≤ 60)) :=
  C10_window_filter.1 [⟨"S", 50, "active"⟩, ⟨"S", 5, "active"⟩] 60 30
    (by decide)

/-- C4: with the zone resolved to a fixed offset, `is_store_open` compares
the local wall-clock time against that local weekday's entry — absent
entry means open, `start ≤ end` means open iff
`start ≤ localTime ≤ end` (both ends closed), `start > end` means open iff
`localTime ≥ start` or `localTime ≤ end` — and on the overnight fixture
22:00-06:00 the local instants 23:00, 00:30 and 05:59 are open while
12:00 and 21:59 are closed. -/
theorem C4_is_open_semantics :
    (∀ (tzdb : Tzdb) (pdb : ProvDB) (sid : String) (ts : ℚ)
        (tzo : Option String) (off : Int),
      pdb.tzOf sid = Except.ok tzo →
      tzdb (tzo.getD "America/Chicago") = some off →
      ((pdb.hoursOf sid (weekdayOf (ts + (off : ℚ))) = Except.ok none →
          is_store_open tzdb pdb sid ts = true) ∧
       (∀ (hr : HoursRecord) (sh sm eh em : Nat),
          pdb.hoursOf sid (weekdayOf (ts + (off : ℚ))) = Except.ok (some hr) →
          parseHHMM hr.start_time_local = some (sh, sm) →
          parseHHMM hr.end_time_local = some (eh, em) →
          (((sh : ℚ) * 60 + (sm : ℚ) ≤ (eh : ℚ) * 60 + (em : ℚ)) →
            (is_store_open tzdb pdb sid ts = true ↔
              ((sh : ℚ) * 60 + (sm : ℚ) ≤ timeOfDay (ts + (off : ℚ)) ∧
               timeOfDay (ts + (off : ℚ)) ≤ (eh : ℚ) * 60 + (em : ℚ)))) ∧
          (((eh : ℚ) * 60 + (em : ℚ) < (sh : ℚ) * 60 + (sm : ℚ)) →
            (is_store_open tzdb pdb sid ts = true ↔
              ((sh : ℚ) * 60 + (sm : ℚ) ≤ timeOfDay (ts + (off : ℚ)) ∨
               timeOfDay (ts + (off : ℚ)) ≤ (eh : ℚ) * 60 + (em : ℚ))))))) ∧
    is_store_open tzdbUTC dbC4.toProv "S" 1380 = true ∧
    is_store_open tzdbUTC dbC4.toProv "S" 30 = true ∧
    is_store_open tzdbUTC dbC4.toProv "S" 359 = true ∧
    is_store_open tzdbUTC dbC4.toProv "S" 720 = false ∧
    is_store_open tzdbUTC dbC4.toProv "S" 1319 = false := by
  refine ⟨?_, ?_, ?_, ?_, ?_, ?_⟩
  · intro tzdb pdb sid ts tzo off h1 h2
    constructor
    · intro h3
      unfold is_store_open
      simp [h1, h2, h3]
    · intro hr sh sm eh em h3 h4 h5
      constructor
      · intro hle
        unfold is_store_open
        simp only [h1, h2, h3, h4, h5]
        rw [if_neg (not_lt.mpr hle)]
        simp [Bool.and_eq_true, decide_eq_true_eq]
      · intro hlt
        unfold is_store_open
        simp only [h1, h2, h3, h4, h5]
        rw [if_pos hlt]
        simp [Bool.or_eq_true, decide_eq_true_eq]
  · with_unfolding_all rfl
  · with_unfolding_all rfl
  · with_unfolding_all rfl
  · with_unfolding_all rfl
  · with_unfolding_all rfl

/-- Witness for C4: applying the oracle description at local noon of the
overnight fixture shows the store closed there. -/
theorem C4_is_open_semantics_witness :
    is_store_open tzdbUTC dbC4.toProv "S" 720 = true ↔
      ((22 : ℚ) * 60 + (0 : ℚ) ≤ timeOfDay ((720 : ℚ) + ((0 : Int) : ℚ)) ∨
       timeOfDay ((720 : ℚ) + ((0 : Int) : ℚ)) ≤ (6 : ℚ) * 60 + (0 : ℚ)) :=
  (((C4_is_open_semantics.1 tzdbUTC dbC4.toProv "S" 720 (some "UTC") 0
      (by with_unfolding_all rfl) rfl).2
    ⟨"S", 0, "22:00", "06:00"⟩ 22 0 6 0
      (by with_unfolding_all rfl) (by decide) (by decide)).2) (by norm_num)

/-- C6: any resolution error inside `is_store_open` — an unknown timezone
name or a malformed HH:MM schedule string — makes it return `true`
(fail-open); the Bool-valued embedding returns instead of raising, so no
such error reaches the caller. -/
theorem C6_fail_open (tzdb : Tzdb) (pdb : ProvDB) (sid : String) (ts : ℚ) :
    (∀ tzo : Option String,
      pdb.tzOf sid = Except.ok tzo →
      tzdb (tzo.getD "America/Chicago") = none →
      is_store_open tzdb pdb sid ts = true) ∧
    (∀ (tzo : Option String) (off : Int) (hr : HoursRecord),
      pdb.tzOf sid = Except.ok tzo →
      tzdb (tzo.getD "America/Chicago") = some off →
      pdb.hoursOf sid (weekdayOf (ts + (off : ℚ))) = Except.ok (some hr) →
      (parseHHMM hr.start_time_local = none ∨ parseHHMM hr.end_time_local = none) →
      is_store_open tzdb pdb sid ts = true) := by
  constructor
  · intro tzo h1 h2
    unfold is_store_open
    simp [h1, h2]
  · intro tzo off hr h1 h2 h3 h4
    unfold is_store_open
    cases h4 with
    | inl h5 =>
      cases h6 : parseHHMM hr.end_time_local <;> simp [h1, h2, h3, h5, h6]
    | inr h5 =>
      cases h6 : parseHHMM hr.start_time_local <;> simp [h1, h2, h3, h5, h6]

/-- Witness for C6: an unknown zone name and a malformed start string
both fail open at the concrete instant 100. -/
theorem C6_fail_open_witness :
    is_store_open tzdbUTC dbC6a.toProv "S" 100 = true ∧
    is_store_open tzdbUTC dbC6b.toProv "S" 100 = true :=
  ⟨(C6_fail_open tzdbUTC dbC6a.toProv "S" 100).1 (some "Mars/Olympus")
      (by with_unfolding_all rfl) rfl,
   (C6_fail_open tzdbUTC dbC6b.toProv "S" 100).2 (some "UTC") 0
      ⟨"S", 0, "9am", "17:00"⟩ (by with_unfolding_all rfl) rfl
      (by with_unfolding_all rfl) (Or.inl (by decide))⟩

/-- C7 counterexample: with the store-id query succeeding but the sample
provider failing for store S, `generate_report` still completes and
surfaces a row — the per-store except block turns the provider failure
into `(0, 0)` instead of failing the whole computation, contradicting the
claim that such a failure is fatal and produces no rows. -/
theorem C7_counterexample :
    pdbC7.statusOf "S" = Except.error () ∧
    generate_report tzdbUTC pdbC7 0 ≠ ReportOutcome.Failed ∧
    generate_report tzdbUTC pdbC7 0 =
      ReportOutcome.Complete
        [{ store_id := "S"
         , uptime_last_hour := 0, uptime_last_day := 0, uptime_last_week := 0
         , downtime_last_hour := 0, downtime_last_day := 0
         , downtime_last_week := 0 }] := by
  have hc : generate_report tzdbUTC pdbC7 0 =
      ReportOutcome.Complete
        [{ store_id := "S"
         , uptime_last_hour := 0, uptime_last_day := 0, uptime_last_week := 0
         , downtime_last_hour := 0, downtime_last_day := 0
         , downtime_last_week := 0 }] := by
    with_unfolding_all rfl
  refine ⟨rfl, ?_, hc⟩
  rw [hc]
  intro hcontra
  exact ReportOutcome.noConfusion hcontra

/-- C7 amended: only a failure of the store-id enumeration is fatal to the
report (it is marked `Failed` with no rows); a failure of the per-store
sample provider is caught inside `calculate_uptime_downtime`, which
returns `(0, 0)`, and the report still completes with one row per
enumerated store. -/
theorem C7_provider_failure_amended (tzdb : Tzdb) (pdb : ProvDB) (now : ℚ) :
    (pdb.storeIds = Except.error () →
      generate_report tzdb pdb now = ReportOutcome.Failed) ∧
    (∀ (sid p : String), pdb.statusOf sid = Except.error () →
      calculate_uptime_downtime tzdb pdb now sid p = (0, 0)) ∧
    (∀ sids : List String, pdb.storeIds = Except.ok sids →
      generate_report tzdb pdb now =
        ReportOutcome.Complete (sids.map (storeRow tzdb pdb now))) := by
  refine ⟨?_, ?_, ?_⟩
  · intro h
    unfold generate_report
    simp [h]
  · intro sid p h
    unfold calculate_uptime_downtime
    simp [h]
  · intro sids h
    unfold generate_report
    simp [h]

/-- Witness for the amended C7 on the `pdbC7` fixture. -/
theorem C7_provider_failure_amended_witness :
    calculate_uptime_downtime tzdbUTC pdbC7 0 "S" "hour" = (0, 0) ∧
    generate_report tzdbUTC pdbC7 0 =
      ReportOutcome.Complete (["S"].map (storeRow tzdbUTC pdbC7 0)) :=
  ⟨(C7_provider_failure_amended tzdbUTC pdbC7 0).2.1 "S" "hour" rfl,
   (C7_provider_failure_amended tzdbUTC pdbC7 0).2.2 ["S"] rfl⟩

/-- C1 counterexample: on the §8 fixture the engine's hour-window result
is not `(0, 60)` and its day-window result is not `(7, 1)` — the
business-minutes accumulator charges the full Monday budget (480) to the
hour window and the full Sunday (1440) plus Monday (480) budgets to the
day window. -/
theorem C1_counterexample :
    calculate_uptime_downtime tzdbUTC dbC1.toProv 1020 "S" "hour"
      ≠ ((0 : ℚ), (60 : ℚ)) ∧
    calculate_uptime_downtime tzdbUTC dbC1.toProv 1020 "S" "day"
      ≠ ((7 : ℚ), (1 : ℚ)) := by
  have hh : calculate_uptime_downtime tzdbUTC dbC1.toProv 1020 "S" "hour"
      = ((0 : ℚ), (480 : ℚ)) := by
    with_unfolding_all rfl
  have hd : calculate_uptime_downtime tzdbUTC dbC1.toProv 1020 "S" "day"
      = ((7 : ℚ), (25 : ℚ)) := by
    with_unfolding_all rfl
  constructor
  · rw [hh]
    intro hcontra
    have : (480 : ℚ) = 60 := congrArg Prod.snd hcontra
    norm_num at this
  · rw [hd]
    intro hcontra
    have : (25 : ℚ) = 1 := congrArg Prod.snd hcontra
    norm_num at this

/-- C1 amended: on the §8 fixture the hour window yields uptime 0 minutes
and downtime 480 minutes (the business-minutes accumulator counts the full
Monday budget of 480 for the single date the hour window touches), and
the day window yields uptime 7.0 hours and downtime 25.0 hours (business
minutes 1920 = unscheduled Sunday 1440 + Monday 480, uptime minutes
420). -/
theorem C1_scenario_amended :
    calculate_uptime_downtime tzdbUTC dbC1.toProv 1020 "S" "hour"
      = ((0 : ℚ), (480 : ℚ)) ∧
    calculate_uptime_downtime tzdbUTC dbC1.toProv 1020 "S" "day"
      = ((7 : ℚ), (25 : ℚ)) :=
  ⟨by with_unfolding_all rfl, by with_unfolding_all rfl⟩
